import Mathlib

/-!
Verification of the futures websocket client (src/futures/websockets.rs and
src/config.rs): endpoint resolution, envelope stripping, untagged event
classification, session connection lifecycle and the read/dispatch loop.

Domain-event payload schemas (crate::model) are outside the sources and are
treated as opaque: a shape matcher `FuturesEvents → Json → Bool` stands for
serde's per-variant structural deserialization test, and the untagged enum's
declaration-order trial is modelled explicitly.
-/

/-- A parsed JSON value (serde_json::Value): null, booleans, numbers, strings,
arrays, and objects as association lists of key/value pairs. Numbers are
modelled as integers; their exact representation plays no role in the claims. -/
inductive Json where
  | null : Json
  | bool (b : Bool) : Json
  | num (n : Int) : Json
  | str (s : String) : Json
  | arr (xs : List Json) : Json
  | obj (fields : List (String × Json)) : Json

/-- serde_json Value::get with a string index: looks a key up in a top-level
object, returns none on any non-object value. -/
def Json.get : Json → String → Option Json
  | .obj fields, k => (fields.find? (fun p => p.1 == k)).map (fun p => p.2)
  | _, _ => none

/-- The envelope decoder embedded in handle_msg (websockets.rs lines 175-178):
if the top-level value has a "data" key, recurse on its contents (the source
serializes that value to a string and re-parses it, which round-trips to the
same value); otherwise the value is already bare. -/
def stripEnvelope (j : Json) : Json :=
  match hget : j.get "data" with
  | some d => stripEnvelope d
  | none => j
termination_by sizeOf j
decreasing_by
  cases j with
  | obj fields =>
    simp only [Json.get, Option.map_eq_some'] at hget
    obtain ⟨p, hfind, hpd⟩ := hget
    have hmem : p ∈ fields := List.mem_of_find?_eq_some hfind
    have h1 : sizeOf p < sizeOf fields := List.sizeOf_lt_of_mem hmem
    obtain ⟨k', v⟩ := p
    simp only at hpd
    subst hpd
    simp only [Json.obj.sizeOf_spec]
    have h2 : sizeOf (k', v) = 1 + sizeOf k' + sizeOf v := rfl
    omega
  | null => simp [Json.get] at hget
  | bool b => simp [Json.get] at hget
  | num n => simp [Json.get] at hget
  | str s => simp [Json.get] at hget
  | arr xs => simp [Json.get] at hget

/-- The variants of the untagged enum FuturesEvents (websockets.rs lines 80-102),
one per wire shape; the opaque payloads are elided. Constructor names follow the
source. -/
inductive FuturesEvents where
  | Vec
  | DayTickerEvent
  | BookTickerEvent
  | MiniTickerEvent
  | VecMiniTickerEvent
  | AccountUpdateEvent
  | OrderTradeEvent
  | AggrTradesEvent
  | IndexPriceEvent
  | MarkPriceEvent
  | VecMarkPriceEvent
  | TradeEvent
  | KlineEvent
  | ContinuousKlineEvent
  | IndexKlineEvent
  | LiquidationEvent
  | OrderBook
  | DepthOrderBookEvent
  | UserDataStreamExpiredEvent
deriving DecidableEq

/-- The variants of FuturesWebsocketEvent (websockets.rs lines 53-73), the typed
events handed to the caller; payloads elided. -/
inductive FuturesWebsocketEvent where
  | AccountUpdate
  | OrderTrade
  | AggrTrades
  | Trade
  | OrderBook
  | DayTicker
  | MiniTicker
  | MiniTickerAll
  | IndexPrice
  | MarkPrice
  | MarkPriceAll
  | DayTickerAll
  | Kline
  | ContinuousKline
  | IndexKline
  | Liquidation
  | DepthOrderBook
  | BookTicker
  | UserDataStreamExpiredEvent
deriving DecidableEq

/-- The order in which serde tries the variants of an untagged enum: the
declaration order of FuturesEvents (websockets.rs lines 83-101). -/
def futuresEventsAttemptOrder : List FuturesEvents :=
  [.Vec, .DayTickerEvent, .BookTickerEvent, .MiniTickerEvent, .VecMiniTickerEvent,
   .AccountUpdateEvent, .OrderTradeEvent, .AggrTradesEvent, .IndexPriceEvent,
   .MarkPriceEvent, .VecMarkPriceEvent, .TradeEvent, .KlineEvent,
   .ContinuousKlineEvent, .IndexKlineEvent, .LiquidationEvent, .OrderBook,
   .DepthOrderBookEvent, .UserDataStreamExpiredEvent]

/-- The precedence order the specification asserts in its section 4.4 (1. array
of day-tickers ... 13. continuous-contract kline, 14. index kline,
15. liquidation, 16. kline ...), written down for comparison with the order the
code actually uses. -/
def specSection44Order : List FuturesEvents :=
  [.Vec, .DayTickerEvent, .BookTickerEvent, .MiniTickerEvent, .VecMiniTickerEvent,
   .AccountUpdateEvent, .OrderTradeEvent, .AggrTradesEvent, .IndexPriceEvent,
   .MarkPriceEvent, .VecMarkPriceEvent, .TradeEvent, .ContinuousKlineEvent,
   .IndexKlineEvent, .LiquidationEvent, .KlineEvent, .OrderBook,
   .DepthOrderBookEvent, .UserDataStreamExpiredEvent]

/-- The mapping from a deserialized FuturesEvents variant to the
FuturesWebsocketEvent handed to the handler (the match in handle_msg,
websockets.rs lines 181-203). -/
def toEvent : FuturesEvents → FuturesWebsocketEvent
  | .Vec => .DayTickerAll
  | .DayTickerEvent => .DayTicker
  | .BookTickerEvent => .BookTicker
  | .MiniTickerEvent => .MiniTicker
  | .VecMiniTickerEvent => .MiniTickerAll
  | .AccountUpdateEvent => .AccountUpdate
  | .OrderTradeEvent => .OrderTrade
  | .IndexPriceEvent => .IndexPrice
  | .MarkPriceEvent => .MarkPrice
  | .VecMarkPriceEvent => .MarkPriceAll
  | .TradeEvent => .Trade
  | .ContinuousKlineEvent => .ContinuousKline
  | .IndexKlineEvent => .IndexKline
  | .LiquidationEvent => .Liquidation
  | .KlineEvent => .Kline
  | .OrderBook => .OrderBook
  | .DepthOrderBookEvent => .DepthOrderBook
  | .AggrTradesEvent => .AggrTrades
  | .UserDataStreamExpiredEvent => .UserDataStreamExpiredEvent

/-- serde_json::from_value on the untagged enum FuturesEvents: try each variant
in declaration order against the bare value and keep the first structural match.
The per-variant structural test is the opaque payload schema, abstracted as the
matcher m. -/
def untaggedDeserialize (m : FuturesEvents → Json → Bool) (j : Json) :
    Option FuturesEvents :=
  futuresEventsAttemptOrder.find? (fun s => m s j)

/-- The event classifier: untagged deserialization followed by the variant
mapping of handle_msg (websockets.rs lines 180-203). -/
def classify (m : FuturesEvents → Json → Bool) (j : Json) :
    Option FuturesWebsocketEvent :=
  (untaggedDeserialize m j).map toEvent

/-- The configuration record (config.rs lines 1-12). -/
structure Config where
  rest_api_endpoint : String
  ws_endpoint : String
  futures_rest_api_endpoint : String
  futures_ws_endpoint : String
  futures_ws_endpoint_coin_m : String
  futures_ws_endpoint_vanilla : String
  recv_window : Nat

/-- Config::default (config.rs lines 14-28): the production endpoints. -/
def Config.default : Config :=
  { rest_api_endpoint := "https://api.binance.com"
    ws_endpoint := "wss://stream.binance.com:9443/ws"
    futures_rest_api_endpoint := "https://fapi.binance.com"
    futures_ws_endpoint := "wss://fstream.binance.com"
    futures_ws_endpoint_coin_m := "wss://dstream.binance.com"
    futures_ws_endpoint_vanilla := "wss://vstream.binance.com"
    recv_window := 5000 }

/-- The connection modes (websockets.rs lines 19-23). -/
inductive FuturesWebsocketAPI where
  | Default
  | MultiStream
  | Custom (url : String)

/-- The market segments (websockets.rs lines 25-29). -/
inductive FuturesMarket where
  | USDM
  | COINM
  | Vanilla

/-- The endpoint resolver FuturesWebsocketAPI::params (websockets.rs
lines 31-49). -/
def FuturesWebsocketAPI.params (self : FuturesWebsocketAPI)
    (market : FuturesMarket) (subscription : String) (config : Config) : String :=
  let baseurl :=
    match market with
    | .USDM => config.futures_ws_endpoint
    | .COINM => config.futures_ws_endpoint_coin_m
    | .Vanilla => config.futures_ws_endpoint_vanilla
  match self with
  | .Default => baseurl ++ "/ws/" ++ subscription
  | .MultiStream => baseurl ++ "/stream?streams=" ++ subscription
  | .Custom url => url ++ "/" ++ subscription

/-- The session state FuturesWebSockets (websockets.rs lines 75-78): an optional
connection handle and the boxed caller handler. Handles are opaque identifiers;
the handler's closure is opaque, of caller-chosen type. -/
structure Session (α : Type) where
  socket : Option Nat
  handler : α

/-- Observable transport actions of the lifecycle operations: initiating a close
frame on a handle. Used to state which operations do and do not close
handles. -/
inductive TransportAction where
  | closeFrame (h : Nat)
deriving DecidableEq

/-- connect_wss (websockets.rs lines 149-158). Url::parse and the transport
handshake are external effects, abstracted as oracles keyed by the URL string:
urlParse gives the parse outcome, conn gives the handshake outcome (a fresh
handle on success). On success the new handle overwrites the stored one; no
close frame is sent for any previously stored handle. -/
def connect_wss {α : Type} (urlParse : String → Except String Unit)
    (conn : String → Except String Nat) (wss : String) (s : Session α) :
    Except String Unit × Session α × List TransportAction :=
  match urlParse wss with
  | .error e => (.error e, s, [])
  | .ok _ =>
    match conn wss with
    | .ok h => (.ok (), { s with socket := some h }, [])
    | .error e => (.error ("Error during handshake " ++ e), s, [])

/-- connect (websockets.rs lines 115-121): Default mode, production default
configuration. -/
def Session.connect {α : Type} (urlParse : String → Except String Unit)
    (conn : String → Except String Nat) (market : FuturesMarket)
    (subscription : String) (s : Session α) :
    Except String Unit × Session α × List TransportAction :=
  connect_wss urlParse conn
    (FuturesWebsocketAPI.Default.params market subscription Config.default) s

/-- connect_with_config (websockets.rs lines 123-127). -/
def Session.connect_with_config {α : Type} (urlParse : String → Except String Unit)
    (conn : String → Except String Nat) (market : FuturesMarket)
    (subscription : String) (config : Config) (s : Session α) :
    Except String Unit × Session α × List TransportAction :=
  connect_wss urlParse conn
    (FuturesWebsocketAPI.Default.params market subscription config) s

/-- connect_multiple_streams (websockets.rs lines 129-137): MultiStream mode on
the endpoints joined by "/", production default configuration. -/
def Session.connect_multiple_streams {α : Type}
    (urlParse : String → Except String Unit) (conn : String → Except String Nat)
    (market : FuturesMarket) (endpoints : List String) (s : Session α) :
    Except String Unit × Session α × List TransportAction :=
  connect_wss urlParse conn
    (FuturesWebsocketAPI.MultiStream.params market
      (String.intercalate "/" endpoints) Config.default) s

/-- connect_multiple_streams_with_config (websockets.rs lines 139-147). -/
def Session.connect_multiple_streams_with_config {α : Type}
    (urlParse : String → Except String Unit) (conn : String → Except String Nat)
    (market : FuturesMarket) (endpoints : List String) (config : Config)
    (s : Session α) : Except String Unit × Session α × List TransportAction :=
  connect_wss urlParse conn
    (FuturesWebsocketAPI.MultiStream.params market
      (String.intercalate "/" endpoints) config) s

/-- disconnect (websockets.rs lines 160-166): with a handle present, initiate a
close frame on it (closeResult is the transport's outcome for that close, which
the source propagates through the question-mark operator) and leave the stored
handle in place; with no handle, fail. -/
def Session.disconnect {α : Type} (closeResult : Except String Unit)
    (s : Session α) : Except String Unit × Session α × List TransportAction :=
  match s.socket with
  | some h =>
    match closeResult with
    | .ok _ => (.ok (), s, [.closeFrame h])
    | .error e => (.error e, s, [.closeFrame h])
  | none => (.error "Not able to close the connection", s, [])

/-- handle_msg (websockets.rs lines 172-207) on an already-parsed frame: unwrap
the multiplexed envelope by recursing on any "data" member, then classify the
bare value; on a match invoke the (stateful, FnMut) handler once and propagate
its result, on no match succeed without invoking it. Returns the result, the
updated handler state, and the list of handler invocations made. -/
def handleMsg {σ : Type} (m : FuturesEvents → Json → Bool)
    (handler : σ → FuturesWebsocketEvent → Except String Unit × σ) (st : σ)
    (j : Json) : Except String Unit × σ × List FuturesWebsocketEvent :=
  match hget : j.get "data" with
  | some d => handleMsg m handler st d
  | none =>
    match untaggedDeserialize m j with
    | some sh =>
      let r := handler st (toEvent sh)
      (r.1, r.2, [toEvent sh])
    | none => (.ok (), st, [])
termination_by sizeOf j
decreasing_by
  cases j with
  | obj fields =>
    simp only [Json.get, Option.map_eq_some'] at hget
    obtain ⟨p, hfind, hpd⟩ := hget
    have hmem : p ∈ fields := List.mem_of_find?_eq_some hfind
    have h1 : sizeOf p < sizeOf fields := List.sizeOf_lt_of_mem hmem
    obtain ⟨k', v⟩ := p
    simp only at hpd
    subst hpd
    simp only [Json.obj.sizeOf_spec]
    have h2 : sizeOf (k', v) = 1 + sizeOf k' + sizeOf v := rfl
    omega
  | null => simp [Json.get] at hget
  | bool b => simp [Json.get] at hget
  | num n => simp [Json.get] at hget
  | str s => simp [Json.get] at hget
  | arr xs => simp [Json.get] at hget

/-- One result of the blocking read_message call in the event loop: a decoded
frame, or a transport read error (propagated by the question-mark operator). A
ping frame carries whether the pong reply that the loop writes back will
succeed, since the write is an external transport effect. -/
inductive WireRead where
  | text (j : Json)
  | ping (pongSendOk : Bool)
  | pong
  | binary
  | frame
  | close (reason : Option String)
  | readErr (e : String)

/-- Debug formatting of the optional close frame payload, as in
format!("Disconnected {:?}", e). -/
def formatCloseReason : Option String → String
  | none => "None"
  | some r => "Some(" ++ r ++ ")"

/-- How one invocation of event_loop ends: an Ok(()) return, an Err return, or
a panic (the unwrap on the pong write). -/
inductive Outcome where
  | ok
  | err (msg : String)
  | panicked
  | blocked
deriving DecidableEq

/-- event_loop (websockets.rs lines 209-228). flags lists the successive values
the loop reads from the shared cancellation flag, one per iteration (an
exhausted list reads as false: the caller cleared the flag); reads lists the
successive outcomes of read_message. hasSocket is whether self.socket is
present (the loop body never changes it). Returns the outcome and the handler
invocations made, threading the handler state. Outcome.blocked marks a read
with no further incoming data: the real loop blocks there forever. -/
def eventLoop {σ : Type} (m : FuturesEvents → Json → Bool)
    (handler : σ → FuturesWebsocketEvent → Except String Unit × σ)
    (hasSocket : Bool) (st : σ) :
    List Bool → List WireRead → Outcome × List FuturesWebsocketEvent
  | [], _ => (.err "running loop closed", [])
  | false :: _, _ => (.err "running loop closed", [])
  | true :: fs, reads =>
    if hasSocket then
      match reads with
      | [] => (.blocked, [])
      | .text j :: rest =>
        match handleMsg m handler st j with
        | (.error e, _, evs) =>
          (.err ("Error on handling stream message: " ++ e), evs)
        | (.ok _, st2, evs) =>
          let r := eventLoop m handler true st2 fs rest
          (r.1, evs ++ r.2)
      | .ping pongSendOk :: rest =>
        if pongSendOk then eventLoop m handler true st fs rest
        else (.panicked, [])
      | .pong :: rest => eventLoop m handler true st fs rest
      | .binary :: rest => eventLoop m handler true st fs rest
      | .frame :: rest => eventLoop m handler true st fs rest
      | .close reason :: _ =>
        (.err ("Disconnected " ++ formatCloseReason reason), [])
      | .readErr e :: _ => (.err e, [])
    else
      eventLoop m handler false st fs reads

/-- A caller handler (FnMut, with its invocation count as mutable state) that
succeeds on every invocation except the n-th, where it reports the error e. -/
def failingHandler (n : Nat) (e : String) :
    Nat → FuturesWebsocketEvent → Except String Unit × Nat :=
  fun k _ => if k + 1 = n then (.error e, k + 1) else (.ok (), k + 1)

/-- A shape matcher under which a frame structurally matches both the kline and
the continuous-kline payload schemas and nothing else: the overlap that makes
the positions of KlineEvent and ContinuousKlineEvent in the attempt order
observable. -/
def klineMatcher : FuturesEvents → Json → Bool :=
  fun s _ =>
    match s with
    | .KlineEvent => true
    | .ContinuousKlineEvent => true
    | _ => false

theorem stripEnvelope_of_data {j d : Json} (h : j.get "data" = some d) :
    stripEnvelope j = stripEnvelope d := by
  rw [stripEnvelope]
  split
  next d2 hget2 =>
    rw [h] at hget2
    cases hget2
    rfl
  next hget2 =>
    rw [h] at hget2
    cases hget2

theorem stripEnvelope_of_bare {j : Json} (h : j.get "data" = none) :
    stripEnvelope j = j := by
  rw [stripEnvelope]
  split
  next d2 hget2 =>
    rw [h] at hget2
    cases hget2
  next => rfl

theorem stripEnvelope_get_data_none (j : Json) :
    (stripEnvelope j).get "data" = none := by
  induction j using stripEnvelope.induct with
  | case1 j d hget ih =>
    rw [stripEnvelope_of_data hget]
    exact ih
  | case2 j hget =>
    rw [stripEnvelope_of_bare hget]
    exact hget

theorem handleMsg_of_data {σ : Type} (m : FuturesEvents → Json → Bool)
    (handler : σ → FuturesWebsocketEvent → Except String Unit × σ) (st : σ)
    {j d : Json} (h : j.get "data" = some d) :
    handleMsg m handler st j = handleMsg m handler st d := by
  rw [handleMsg]
  split
  next d2 hget2 =>
    rw [h] at hget2
    cases hget2
    rfl
  next hget2 =>
    rw [h] at hget2
    cases hget2

theorem handleMsg_of_bare {σ : Type} (m : FuturesEvents → Json → Bool)
    (handler : σ → FuturesWebsocketEvent → Except String Unit × σ) (st : σ)
    {j : Json} (h : j.get "data" = none) :
    handleMsg m handler st j =
      match untaggedDeserialize m j with
      | some sh => ((handler st (toEvent sh)).1, (handler st (toEvent sh)).2,
          [toEvent sh])
      | none => (.ok (), st, []) := by
  rw [handleMsg]
  split
  next d2 hget2 =>
    rw [h] at hget2
    cases hget2
  next => rfl

theorem handleMsg_eq_stripEnvelope {σ : Type} (m : FuturesEvents → Json → Bool)
    (handler : σ → FuturesWebsocketEvent → Except String Unit × σ) (st : σ)
    (j : Json) :
    handleMsg m handler st j = handleMsg m handler st (stripEnvelope j) := by
  induction j using stripEnvelope.induct with
  | case1 j d hget ih =>
    rw [handleMsg_of_data m handler st hget, stripEnvelope_of_data hget]
    exact ih
  | case2 j hget =>
    rw [stripEnvelope_of_bare hget]

theorem find?_of_first {α : Type} (p : α → Bool) :
    ∀ (l : List α) (i : Nat) (hi : i < l.length),
      p (l.get ⟨i, hi⟩) = true →
      (∀ k (hk : k < i), p (l.get ⟨k, hk.trans hi⟩) = false) →
      l.find? p = some (l.get ⟨i, hi⟩) := by
  intro l
  induction l with
  | nil =>
    intro i hi
    simp at hi
  | cons a t ih =>
    intro i hi hp hb
    cases i with
    | zero =>
      simp only [List.get] at hp
      simp [List.find?, hp]
    | succ n =>
      have ha : p a = false := hb 0 (Nat.succ_pos n)
      simp only [List.find?, ha]
      simp only [List.get] at hp ⊢
      exact ih n (Nat.lt_of_succ_lt_succ hi) hp
        (fun k hk => hb (k + 1) (Nat.succ_lt_succ hk))

theorem eventLoop_ne_ok {σ : Type} (m : FuturesEvents → Json → Bool)
    (handler : σ → FuturesWebsocketEvent → Except String Unit × σ)
    (hs : Bool) :
    ∀ (fs : List Bool) (reads : List WireRead) (st : σ),
      (eventLoop m handler hs st fs reads).1 ≠ Outcome.ok := by
  intro fs
  induction fs with
  | nil =>
    intro reads st
    simp [eventLoop]
  | cons b fs ih =>
    intro reads st
    cases b with
    | false => simp [eventLoop]
    | true =>
      cases hs with
      | false =>
        simp only [eventLoop, Bool.false_eq_true, if_false]
        exact ih reads st
      | true =>
        cases reads with
        | nil => simp [eventLoop]
        | cons r rest =>
          cases r with
          | text j =>
            rcases hmsg : handleMsg m handler st j with ⟨res, st2, evs⟩
            cases res with
            | error e => simp [eventLoop, hmsg]
            | ok u => simpa [eventLoop, hmsg] using ih rest st2
          | ping pongSendOk =>
            cases pongSendOk with
            | false => simp [eventLoop]
            | true => simpa [eventLoop] using ih rest st
          | pong => simpa [eventLoop] using ih rest st
          | binary => simpa [eventLoop] using ih rest st
          | frame => simpa [eventLoop] using ih rest st
          | close reason => simp [eventLoop]
          | readErr e => simp [eventLoop]

theorem eventLoop_failingHandler {m : FuturesEvents → Json → Bool} (e : String) :
    ∀ (msgs : List Json) (n k : Nat), k < n → msgs.length = n - k →
      (∀ j ∈ msgs, j.get "data" = none ∧ (untaggedDeserialize m j).isSome = true) →
      ∃ evs,
        eventLoop m (failingHandler n e) true k (List.replicate (n - k) true)
            (msgs.map WireRead.text)
          = (Outcome.err ("Error on handling stream message: " ++ e), evs) ∧
        evs.length = n - k := by
  intro msgs
  induction msgs with
  | nil =>
    intro n k hk hlen hall
    simp at hlen
    omega
  | cons j rest ih =>
    intro n k hk hlen hall
    obtain ⟨hbare, hsome⟩ := hall j (List.mem_cons_self j rest)
    obtain ⟨sh, hsh⟩ := Option.isSome_iff_exists.mp hsome
    have hlen1 : rest.length = n - (k + 1) := by
      simp at hlen
      omega
    have hrep : n - k = (n - (k + 1)) + 1 := by omega
    rw [hrep, List.replicate_succ]
    by_cases hkn : k + 1 = n
    · have hrest : rest = [] := List.length_eq_zero.mp (by omega)
      subst hrest
      have hmsg2 : handleMsg m (failingHandler n e) k j =
          (.error e, k + 1, [toEvent sh]) := by
        rw [handleMsg_of_bare m (failingHandler n e) k hbare, hsh]
        simp [failingHandler, hkn]
      refine ⟨[toEvent sh], ?_, ?_⟩
      · simp only [List.map]
        simp [eventLoop, hmsg2]
      · simp
        omega
    · have hmsg2 : handleMsg m (failingHandler n e) k j =
          (.ok (), k + 1, [toEvent sh]) := by
        rw [handleMsg_of_bare m (failingHandler n e) k hbare, hsh]
        simp [failingHandler, hkn]
      obtain ⟨evs2, heq, hlen2⟩ := ih n (k + 1) (by omega) hlen1
        (fun x hx => hall x (List.mem_cons_of_mem j hx))
      refine ⟨toEvent sh :: evs2, ?_, ?_⟩
      · simp only [List.map]
        simp [eventLoop, hmsg2, heq]
      · simp
        omega

/-- C7: the endpoint resolver is a pure function of (mode, segment, descriptor,
config); with the production default configuration, Default mode on USDM with
descriptor "btcusdt@trade" yields wss://fstream.binance.com/ws/btcusdt@trade,
and MultiStream mode on COINM with descriptor "a/b" yields the COINM base
followed by /stream?streams=a/b. -/
theorem resolver_production_scenarios :
    FuturesWebsocketAPI.Default.params .USDM "btcusdt@trade" Config.default =
      "wss://fstream.binance.com/ws/btcusdt@trade" ∧
    FuturesWebsocketAPI.MultiStream.params .COINM "a/b" Config.default =
      "wss://dstream.binance.com/stream?streams=a/b" := ⟨rfl, rfl⟩

/-- C10: connect and connect_multiple_streams behave identically to their
with_config counterparts applied to Config::default: same resolved URL, same
connection attempt, same resulting session state. -/
theorem connect_defaults_refine_with_config :
    ∀ (α : Type) (urlParse : String → Except String Unit)
      (conn : String → Except String Nat) (market : FuturesMarket)
      (subscription : String) (endpoints : List String) (s : Session α),
      Session.connect urlParse conn market subscription s =
        Session.connect_with_config urlParse conn market subscription
          Config.default s ∧
      Session.connect_multiple_streams urlParse conn market endpoints s =
        Session.connect_multiple_streams_with_config urlParse conn market
          endpoints Config.default s := by
  intro α urlParse conn market subscription endpoints s
  exact ⟨rfl, rfl⟩

/-- C4: envelope stripping is the identity on a value with no top-level "data"
key, and on a multiplexed envelope with "stream" and "data" members it recurses
on the "data" payload, tolerating repeated nesting. -/
theorem stripEnvelope_idempotent_on_bare :
    ∀ (j d sv : Json), j.get "data" = none →
      stripEnvelope j = j ∧
      stripEnvelope (Json.obj [("stream", sv), ("data", d)]) =
        stripEnvelope d := by
  intro j d sv h
  refine ⟨stripEnvelope_of_bare h, ?_⟩
  apply stripEnvelope_of_data
  rfl

/-- Witness for C4 at concrete inputs. -/
theorem stripEnvelope_idempotent_on_bare_witness :
    stripEnvelope (Json.obj [("foo", Json.str "bar")]) =
      Json.obj [("foo", Json.str "bar")] ∧
    stripEnvelope (Json.obj [("stream", Json.str "s"), ("data", Json.null)]) =
      stripEnvelope Json.null :=
  stripEnvelope_idempotent_on_bare (Json.obj [("foo", Json.str "bar")])
    Json.null (Json.str "s") rfl

/-- C9: a successful connect_wss on a session already holding a handle silently
overwrites the stored handle with the new one, initiates no close of the prior
handle, and leaves the rest of the session state (the handler) untouched. -/
theorem connect_replaces_handle_without_close :
    ∀ (α : Type) (urlParse : String → Except String Unit)
      (conn : String → Except String Nat) (wss : String) (s : Session α)
      (hOld hNew : Nat),
      s.socket = some hOld → urlParse wss = .ok () → conn wss = .ok hNew →
      connect_wss urlParse conn wss s =
        (.ok (), { socket := some hNew, handler := s.handler }, []) := by
  intro α urlParse conn wss s hOld hNew hsock hurl hconn
  simp [connect_wss, hurl, hconn]

/-- Witness for C9 at concrete inputs. -/
theorem connect_replaces_handle_without_close_witness :
    connect_wss (fun _ => Except.ok ()) (fun _ => Except.ok 5) "wss://example"
        ({ socket := some 1, handler := 42 } : Session Nat) =
      (.ok (), { socket := some 5, handler := 42 }, []) :=
  connect_replaces_handle_without_close Nat (fun _ => Except.ok ())
    (fun _ => Except.ok 5) "wss://example" { socket := some 1, handler := 42 }
    1 5 rfl rfl rfl

/-- C8 counterexample: with a handle present but the transport close failing,
disconnect returns that error, not success, so "when a handle is present,
disconnect returns success" is false as stated. -/
theorem disconnect_close_error_counterexample :
    Session.disconnect (Except.error "broken pipe")
        ({ socket := some 0, handler := 0 } : Session Nat) =
      (.error "broken pipe", { socket := some 0, handler := 0 },
        [.closeFrame 0]) := rfl

/-- C8 as amended: with no handle, disconnect fails with the reported error and
no close frame; with a handle, it initiates a close frame on that handle and
returns success provided the close succeeds, while a failing close propagates
its error. -/
theorem disconnect_reported_failure_or_close :
    ∀ (α : Type) (s : Session α) (h : Nat) (e : String),
      (s.socket = none →
        ∀ closeResult, Session.disconnect closeResult s =
          (.error "Not able to close the connection", s, [])) ∧
      (s.socket = some h →
        Session.disconnect (.ok ()) s = (.ok (), s, [.closeFrame h]) ∧
        Session.disconnect (.error e) s = (.error e, s, [.closeFrame h])) := by
  intro α s h e
  constructor
  · intro hnone closeResult
    simp [Session.disconnect, hnone]
  · intro hsome
    constructor <;> simp [Session.disconnect, hsome]

/-- Witness for C8 at concrete sessions. -/
theorem disconnect_reported_failure_or_close_witness :
    Session.disconnect (Except.ok ())
        ({ socket := none, handler := 0 } : Session Nat) =
      (.error "Not able to close the connection",
        { socket := none, handler := 0 }, []) ∧
    Session.disconnect (Except.ok ())
        ({ socket := some 3, handler := 0 } : Session Nat) =
      (.ok (), { socket := some 3, handler := 0 }, [.closeFrame 3]) :=
  ⟨(disconnect_reported_failure_or_close Nat { socket := none, handler := 0 }
      3 "e").1 rfl (Except.ok ()),
   ((disconnect_reported_failure_or_close Nat { socket := some 3, handler := 0 }
      3 "e").2 rfl).1⟩

/-- C2 counterexample: a failed pong send does not leave the loop running; the
unwrap on the pong write panics. Had the loop continued past the ping, it would
have reported the peer close that follows; instead the run ends in a panic with
no further frame processed. -/
theorem pong_send_failure_panics_counterexample :
    eventLoop (fun _ _ => false) (fun (st : Unit) _ => (Except.ok (), st)) true
        () [true, true] [WireRead.ping false, WireRead.close none] =
      (Outcome.panicked, []) ∧
    eventLoop (fun _ _ => false) (fun (st : Unit) _ => (Except.ok (), st)) true
        () [true] [WireRead.close none] =
      (Outcome.err ("Disconnected None"), []) := ⟨rfl, rfl⟩

/-- C2 as amended: on a ping frame the loop replies with a pong; when the pong
send succeeds the loop simply continues, and when it fails the loop panics (the
unwrap) instead of continuing — the failure is not swallowed. -/
theorem ping_pong_reply_behaviour :
    ∀ (σ : Type) (m : FuturesEvents → Json → Bool)
      (handler : σ → FuturesWebsocketEvent → Except String Unit × σ) (st : σ)
      (fs : List Bool) (rest : List WireRead),
      eventLoop m handler true st (true :: fs) (WireRead.ping true :: rest) =
        eventLoop m handler true st fs rest ∧
      eventLoop m handler true st (true :: fs) (WireRead.ping false :: rest) =
        (Outcome.panicked, []) := by
  intro σ m handler st fs rest
  exact ⟨rfl, rfl⟩

/-- C3: event_loop never returns a silent success: its outcome is never Ok; a
cleared cancellation flag makes it report the terminal stopped-by-caller
condition as an error, and a peer close frame makes it return a peer-close
failure naming the close reason. -/
theorem event_loop_never_silent_success :
    (∀ (σ : Type) (m : FuturesEvents → Json → Bool)
      (handler : σ → FuturesWebsocketEvent → Except String Unit × σ)
      (hs : Bool) (st : σ) (fs : List Bool) (reads : List WireRead),
      (eventLoop m handler hs st fs reads).1 ≠ Outcome.ok) ∧
    (∀ (σ : Type) (m : FuturesEvents → Json → Bool)
      (handler : σ → FuturesWebsocketEvent → Except String Unit × σ)
      (hs : Bool) (st : σ) (fs : List Bool) (reads : List WireRead),
      eventLoop m handler hs st (false :: fs) reads =
        (.err "running loop closed", [])) ∧
    (∀ (σ : Type) (m : FuturesEvents → Json → Bool)
      (handler : σ → FuturesWebsocketEvent → Except String Unit × σ) (st : σ)
      (fs : List Bool) (reason : Option String) (rest : List WireRead),
      eventLoop m handler true st (true :: fs) (WireRead.close reason :: rest) =
        (.err ("Disconnected " ++ formatCloseReason reason), [])) := by
  refine ⟨fun σ m handler hs st fs reads =>
    eventLoop_ne_ok m handler hs fs reads st, ?_, ?_⟩
  · intro σ m handler hs st fs reads
    rfl
  · intro σ m handler st fs reason rest
    rfl

/-- Witness for C3 at concrete runs: flag cleared gives the stopped-by-caller
error, and a close-frame run's outcome is not Ok. -/
theorem event_loop_never_silent_success_witness :
    eventLoop (fun _ _ => false) (fun (st : Unit) _ => (Except.ok (), st)) true
        () [false] [] = (.err "running loop closed", []) ∧
    (eventLoop (fun _ _ => false) (fun (st : Unit) _ => (Except.ok (), st)) true
        () [true] [WireRead.close none]).1 ≠ Outcome.ok :=
  ⟨event_loop_never_silent_success.2.1 Unit (fun _ _ => false)
      (fun st _ => (Except.ok (), st)) true () [] [],
   event_loop_never_silent_success.1 Unit (fun _ _ => false)
      (fun st _ => (Except.ok (), st)) true () [true] [WireRead.close none]⟩

/-- C5: a valid frame whose bare payload matches none of the 19 shapes produces
no handler invocation and no error — handle_msg succeeds with an empty
invocation list, and the read loop goes on to the next frame as if the frame
had not arrived. -/
theorem unmatched_frame_no_event_no_error :
    ∀ (σ : Type) (m : FuturesEvents → Json → Bool)
      (handler : σ → FuturesWebsocketEvent → Except String Unit × σ) (st : σ)
      (j : Json) (fs : List Bool) (rest : List WireRead),
      (∀ sh, m sh (stripEnvelope j) = false) →
      handleMsg m handler st j = (.ok (), st, []) ∧
      eventLoop m handler true st (true :: fs) (WireRead.text j :: rest) =
        eventLoop m handler true st fs rest := by
  intro σ m handler st j fs rest hnone
  have hbare : (stripEnvelope j).get "data" = none := stripEnvelope_get_data_none j
  have hfind : untaggedDeserialize m (stripEnvelope j) = none := by
    unfold untaggedDeserialize
    apply List.find?_eq_none.mpr
    intro x hx
    simp [hnone x]
  have hmain : handleMsg m handler st j = (.ok (), st, []) := by
    rw [handleMsg_eq_stripEnvelope, handleMsg_of_bare m handler st hbare, hfind]
  refine ⟨hmain, ?_⟩
  simp [eventLoop, hmain]

/-- Witness for C5 on the unrecognized object from the spec's test list. -/
theorem unmatched_frame_no_event_no_error_witness :
    handleMsg (fun _ _ => false) (fun (st : Unit) _ => (Except.ok (), st)) ()
        (Json.obj [("foo", Json.str "bar")]) = (.ok (), (), []) ∧
    eventLoop (fun _ _ => false) (fun (st : Unit) _ => (Except.ok (), st)) true
        () [true] [WireRead.text (Json.obj [("foo", Json.str "bar")])] =
      eventLoop (fun _ _ => false) (fun (st : Unit) _ => (Except.ok (), st))
        true () [] [] :=
  unmatched_frame_no_event_no_error Unit (fun _ _ => false)
    (fun st _ => (Except.ok (), st)) () (Json.obj [("foo", Json.str "bar")])
    [] [] (fun _ => rfl)

/-- C1 counterexample: the attempt order the code uses (the declaration order
of FuturesEvents) is not the order of spec section 4.4, and the difference is
observable: under a matcher on which a frame matches both the kline and the
continuous-kline shapes, the classifier returns Kline (position 13 in the
code's order) while the spec's order would select ContinuousKline first. -/
theorem classifier_order_counterexample :
    futuresEventsAttemptOrder ≠ specSection44Order ∧
    classify klineMatcher Json.null = some FuturesWebsocketEvent.Kline ∧
    (specSection44Order.find? (fun s => klineMatcher s Json.null)).map toEvent =
      some FuturesWebsocketEvent.ContinuousKline := by
  exact ⟨by decide, rfl, rfl⟩

/-- C1 as amended: the classifier attempts the 19 shapes in the declaration
order of FuturesEvents — identical to the spec's section 4.4 order except that
positions 13-16 are kline, continuous-contract kline, index kline, liquidation —
and returns the variant of the first shape that structurally matches. -/
theorem classifier_declaration_order_first_match :
    futuresEventsAttemptOrder =
      [FuturesEvents.Vec, .DayTickerEvent, .BookTickerEvent, .MiniTickerEvent,
       .VecMiniTickerEvent, .AccountUpdateEvent, .OrderTradeEvent,
       .AggrTradesEvent, .IndexPriceEvent, .MarkPriceEvent, .VecMarkPriceEvent,
       .TradeEvent, .KlineEvent, .ContinuousKlineEvent, .IndexKlineEvent,
       .LiquidationEvent, .OrderBook, .DepthOrderBookEvent,
       .UserDataStreamExpiredEvent] ∧
    ∀ (m : FuturesEvents → Json → Bool) (j : Json) (i : Nat)
      (hi : i < futuresEventsAttemptOrder.length),
      m (futuresEventsAttemptOrder.get ⟨i, hi⟩) j = true →
      (∀ k (hk : k < i),
        m (futuresEventsAttemptOrder.get ⟨k, hk.trans hi⟩) j = false) →
      classify m j = some (toEvent (futuresEventsAttemptOrder.get ⟨i, hi⟩)) := by
  refine ⟨rfl, ?_⟩
  intro m j i hi hp hb
  unfold classify untaggedDeserialize
  rw [find?_of_first (fun s => m s j) futuresEventsAttemptOrder i hi hp hb]
  rfl

/-- Witness for C1: under the kline/continuous-kline overlap matcher, the first
match is at index 12 (KlineEvent) and the classifier returns Kline. -/
theorem classifier_declaration_order_first_match_witness :
    classify klineMatcher Json.null = some FuturesWebsocketEvent.Kline :=
  classifier_declaration_order_first_match.2 klineMatcher Json.null 12
    (by decide) (by decide) (by decide)

/-- C6: with a handler that fails on its n-th invocation and a stream of frames
that each classify to one event, the loop terminates with the wrapped error
naming the handler's failure after exactly n invocations; the failing handler
is never retried. -/
theorem handler_failure_stops_loop :
    ∀ (m : FuturesEvents → Json → Bool) (e : String) (msgs : List Json)
      (n : Nat),
      0 < n → msgs.length = n →
      (∀ j ∈ msgs, j.get "data" = none ∧
        (untaggedDeserialize m j).isSome = true) →
      ∃ evs,
        eventLoop m (failingHandler n e) true 0 (List.replicate n true)
            (msgs.map WireRead.text)
          = (Outcome.err ("Error on handling stream message: " ++ e), evs) ∧
        evs.length = n := by
  intro m e msgs n hn hlen hall
  have h := eventLoop_failingHandler e msgs n 0 hn (by omega) hall
  simpa using h

/-- Witness for C6: a handler failing on its first event stops a one-frame run
with the wrapped error after one invocation. -/
theorem handler_failure_stops_loop_witness :
    ∃ evs,
      eventLoop (fun _ _ => true) (failingHandler 1 "handler boom") true 0
          (List.replicate 1 true) ([Json.null].map WireRead.text)
        = (Outcome.err ("Error on handling stream message: " ++ "handler boom"),
            evs) ∧
      evs.length = 1 :=
  handler_failure_stops_loop (fun _ _ => true) "handler boom" [Json.null] 1
    (by decide) rfl
    (by
      intro j hj
      simp only [List.mem_singleton] at hj
      subst hj
      exact ⟨rfl, rfl⟩)
